import Mathlib

/-!
Shallow embedding of the gesture-recognition core of the `air` repository
(hand-gesture control pipeline), covering:

* `src/utils/gesture_recorder.py`  — template recording and DTW-style matching
* `src/core/gesture_detector.py`   — the stateful gesture classifier
* `src/utils/optimizer.py`         — the adaptive performance controller
* `src/core/hand_tracker.py`       — landmark smoothing

Real-number conventions: Python floats are modelled by `ℚ`.  Euclidean
norms (`np.linalg.norm`) are irrational in general, so a norm value is
represented by the rational square of the distance together with enough
context to compare it exactly: the encodings `GDist` (a template-match
cost `√s / k`) and `NormVal` (a normalized pinch ratio `√(a/b)`, plus the
IEEE `inf`/`nan` results of the unguarded division when the base distance
is zero) carry decidable order tests that agree with the real-number
comparisons the Python code performs, because `x ↦ x²` is strictly
monotone on nonnegative reals.
-/

namespace Air

/-- A landmark is the list of float coordinates of one skeleton point
(`[x, y, z]` as produced by the tracker, but malformed inputs may have any
length). -/
abbrev Landmark := List ℚ

/-- A hand is an ordered list of landmarks (21 entries when well formed). -/
abbrev Hand := List Landmark

/-- A recorded gesture: the ordered sequence of per-frame landmark lists. -/
abbrev Template := List Hand

/-- Squared Frobenius norm of the difference of two equally-shaped landmark
arrays, i.e. the square of
`np.linalg.norm(np.array(current[i]) - np.array(recorded[j]))` in
`GestureRecorder._calculate_gesture_distance` (both arrays are flattened
row-major; the subtraction is elementwise for equal shapes, which is the
shape discipline at every call site exercised here). -/
def frameDistSq (a b : Hand) : ℚ :=
  (List.zipWith (fun x y => (x - y) ^ 2) a.flatten b.flatten).sum

namespace GestureRecorder

/-- A template-match cost as returned by
`GestureRecorder._calculate_gesture_distance`: either the float `inf`
(empty template) or the real number `√sq / den` (final matrix cell over the
summed lengths), stored by its square `sq` and denominator `den`. -/
inductive GDist where
  | inf : GDist
  | val (sq : ℚ) (den : ℕ) : GDist
deriving DecidableEq

/-- The float comparison `distance < min_distance` of `compare_gesture`,
on the encoded values: `√s/k < √s'/k' ↔ s·k'² < s'·k²` for positive
denominators, every finite float is `< inf`, and `inf < inf` is false. -/
def GDist.ltD : GDist → GDist → Bool
  | .inf, _ => false
  | .val _ _, .inf => true
  | .val s k, .val s' k' => decide (s * (k' : ℚ) ^ 2 < s' * (k : ℚ) ^ 2)

/-- The float comparison `min_distance < threshold` of `compare_gesture`
against a rational threshold `t`: `inf < t` is false, and for a positive
denominator `√s/k < t ↔ 0 < t ∧ s < t²·k²` (the left side is
nonnegative). -/
def GDist.ltQ : GDist → ℚ → Bool
  | .inf, _ => false
  | .val s k, t => decide (0 < t ∧ s < t ^ 2 * (k : ℚ) ^ 2)

/-- Embedding of `GestureRecorder._calculate_gesture_distance`.  The
Python code returns `float('inf')` for an empty template; otherwise it
fills `dtw_matrix[i, j]` with only the local cost
`norm(current[i] - recorded[j])` (the `np.zeros` matrix is never
accumulated) and returns `dtw_matrix[-1, -1] / (len(current) + len(recorded))`,
i.e. the distance between the two last frames over the summed lengths.
`current` is nonempty at every call site (`compare_gesture` returns early
on an empty query; Python would raise `IndexError` on `dtw_matrix[-1, -1]`
otherwise). -/
def calculate_gesture_distance (current recorded : Template) : GDist :=
  if recorded.length = 0 then .inf
  else .val (frameDistSq (current.getLastD []) (recorded.getLastD []))
            (current.length + recorded.length)

/-- The running-minimum loop of `GestureRecorder.compare_gesture` over the
`recorded_gestures` dict (modelled as an association list in insertion
order), threading the accumulator `(best_match, min_distance)`. -/
def bestMatch (current : Template) :
    List (String × Template) → Option String × GDist → Option String × GDist
  | [], acc => acc
  | (nm, t) :: rest, (bm, md) =>
      let d := calculate_gesture_distance current t
      if d.ltD md then bestMatch current rest (some nm, d)
      else bestMatch current rest (bm, md)

/-- Embedding of `GestureRecorder.compare_gesture`: `None` on an empty
query, otherwise the running minimum over all stored templates starting
from `(None, inf)`, returned only when strictly below the `0.3`
threshold. -/
def compare_gesture (recorded : List (String × Template)) (current : Template) :
    Option String :=
  if current = [] then none
  else
    let r := bestMatch current recorded (none, .inf)
    if r.2.ltQ (3 / 10) then r.1 else none

/-- Recorder state: the `recording` flag, the frames captured so far, the
name given to `start_recording`, the in-memory `recorded_gestures` dict
(association list in insertion order) and the sequence of template records
written to disk by `save_gesture` (modelled as an event list). -/
structure State where
  recording : Bool
  current_gesture : Template
  gesture_name : String
  recorded_gestures : List (String × Template)
  saved_files : List (String × Template)
deriving DecidableEq

/-- Python dict assignment `d[k] = v`: overwrite in place if the key
exists (keeping its position), otherwise append. -/
def dictSet (l : List (String × Template)) (k : String) (v : Template) :
    List (String × Template) :=
  if l.any (fun p => p.1 = k) then
    l.map (fun p => if p.1 = k then (k, v) else p)
  else l ++ [(k, v)]

/-- Embedding of `GestureRecorder.start_recording`. -/
def start_recording (s : State) (nm : String) : State :=
  { s with recording := true, current_gesture := [], gesture_name := nm }

/-- Embedding of `GestureRecorder.stop_recording`: only when recording
and at least one frame was captured does it store the gesture, write the
record, clear the flag and return `True`; otherwise it returns `False`
and changes nothing (the `recording` flag included). -/
def stop_recording (s : State) : Bool × State :=
  if s.recording ∧ 0 < s.current_gesture.length then
    (true,
     { s with
        recorded_gestures := dictSet s.recorded_gestures s.gesture_name s.current_gesture,
        saved_files := s.saved_files ++ [(s.gesture_name, s.current_gesture)],
        recording := false })
  else (false, s)

/-- Embedding of `GestureRecorder.add_frame`: append only while recording
and only a truthy (nonempty) landmark list. -/
def add_frame (s : State) (landmarks : Hand) : State :=
  if s.recording ∧ landmarks ≠ [] then
    { s with current_gesture := s.current_gesture ++ [landmarks] }
  else s

end GestureRecorder

namespace GestureDetector

/-- The closed vocabulary of gesture strings the classifier can return. -/
inductive Gesture where
  | pinch | pinch_hold | spread | nav_left | nav_right | nav_up | nav_down
deriving DecidableEq

/-- The value of `normalized_distance = current_distance / base_distance`
in `GestureDetector._detect_pinch_spread`.  There is no zero guard in the
code: the IEEE float division gives `nan` when both distances are `0.0`,
`+inf` when only the base distance is, and otherwise the real
`√tipSq / √baseSq`, stored by the two squared distances (`baseSq > 0`). -/
inductive NormVal where
  | nan : NormVal
  | inf : NormVal
  | val (tipSq baseSq : ℚ) : NormVal
deriving DecidableEq

/-- Build the `NormVal` of the division from the two squared distances,
following IEEE float semantics for the zero-base case. -/
def normVal (tipSq baseSq : ℚ) : NormVal :=
  if baseSq = 0 then (if tipSq = 0 then .nan else .inf) else .val tipSq baseSq

/-- The float comparison `normalized_distance < t` against a rational
threshold: both `nan` and `inf` compare false, and for `baseSq > 0`
`√tipSq/√baseSq < t ↔ 0 < t ∧ tipSq < t²·baseSq` (the left side is
nonnegative, and squaring is strictly monotone on nonnegatives). -/
def NormVal.ltQ : NormVal → ℚ → Bool
  | .nan, _ => false
  | .inf, _ => false
  | .val a b, t => decide (0 < t ∧ a < t ^ 2 * b)

/-- The float comparison `normalized_distance > t`: `nan` compares false,
`inf` compares true, and for `baseSq > 0` the value `√tipSq/√baseSq` is
nonnegative, so it exceeds a negative `t` always and a nonnegative `t`
exactly when `t²·baseSq < tipSq`. -/
def NormVal.gtQ : NormVal → ℚ → Bool
  | .nan, _ => false
  | .inf, _ => true
  | .val a b, t => if t < 0 then true else decide (t ^ 2 * b < a)

/-- NumPy 1-D broadcast subtraction of the two coordinate prefixes, as in
`np.array(current[i][:2]) - np.array(current[j][:2])`: elementwise for
equal lengths, a length-1 operand broadcasts against the other, and any
other length combination raises `ValueError` (`none` here). -/
def bsub (a b : List ℚ) : Option (List ℚ) :=
  if a.length = b.length then some (List.zipWith (fun x y => x - y) a b)
  else if a.length = 1 then some (b.map (fun y => a.headD 0 - y))
  else if b.length = 1 then some (a.map (fun x => x - b.headD 0))
  else none

/-- Squared Euclidean norm of a coordinate-difference vector, the square
of `np.linalg.norm(...)`. -/
def sumSq (v : List ℚ) : ℚ := (v.map (fun x => x ^ 2)).sum

/-- The `gesture_thresholds` dict of the classifier. -/
structure Thresholds where
  pinch : ℚ
  spread : ℚ
  position : ℚ
  min_distance_change : ℚ
  pointing : ℚ
  pinch_hold_frames : ℕ
deriving DecidableEq

/-- Default thresholds set in `GestureDetector.__init__`. -/
def defaultThresholds : Thresholds :=
  { pinch := 2 / 25, spread := 3 / 20, position := 1 / 5,
    min_distance_change := 1 / 50, pointing := 1 / 10, pinch_hold_frames := 5 }

/-- The mutable fields of a `GestureDetector` instance. -/
structure State where
  current_landmarks : Option Hand
  previous_landmarks : Option Hand
  last_pinch_distance : Option NormVal
  pinch_state : Bool
  pinch_frames : ℕ
  last_gesture : Option Gesture
  gesture_cooldown : ℕ
  thresholds : Thresholds
deriving DecidableEq

/-- The state built by `GestureDetector.__init__` (default config). -/
def initState : State :=
  { current_landmarks := none, previous_landmarks := none,
    last_pinch_distance := none, pinch_state := false, pinch_frames := 0,
    last_gesture := none, gesture_cooldown := 0,
    thresholds := defaultThresholds }

/-- Embedding of `GestureDetector._reset_state`: clears the landmark
fields, the stored pinch distance, the held flag and the hold counter —
and nothing else (`gesture_cooldown` and `last_gesture` are untouched). -/
def reset_state (s : State) : State :=
  { s with previous_landmarks := none, last_pinch_distance := none,
           current_landmarks := none, pinch_state := false, pinch_frames := 0 }

/-- The float comparison `√a > t·√b` used by `_is_finger_extended`
(`pip_tip_dist > mcp_pip_dist * pointing`): for `t < 0` and `b > 0` the
right side is negative, otherwise both sides are nonnegative and the
comparison squares to `t²·b < a`. -/
def sqrtGtMulSqrt (a b t : ℚ) : Bool :=
  if t < 0 ∧ 0 < b then true else decide (t ^ 2 * b < a)

/-- Embedding of `GestureDetector._is_finger_extended`.  Its
`except (IndexError, TypeError)` clause cannot fire on typed inputs of
length ≥ 21, but the NumPy broadcast `ValueError` from the subtractions is
not caught anywhere and propagates (`Except.error`). -/
def is_finger_extended (s : State) (landmarks : Hand) : Except Unit Bool :=
  let mcp := (landmarks.getD 5 []).take 2
  let pip := (landmarks.getD 6 []).take 2
  let tip := (landmarks.getD 8 []).take 2
  match bsub pip mcp, bsub tip pip with
  | some dmp, some dpt =>
      .ok (sqrtGtMulSqrt (sumSq dpt) (sumSq dmp) s.thresholds.pointing)
  | _, _ => .error ()

/-- Embedding of `GestureDetector._detect_pointing`: runs the extension
test, then classifies `index_tip`'s x/y against the fixed screen bands
(left `0.3`, right `0.7`, top `0.3`, bottom `0.7`, in that order).  The
x/y access is guarded by the function's own `except IndexError` (caught,
returns `None`); a broadcast `ValueError` from `_is_finger_extended`
matches neither `except` clause and propagates. -/
def detect_pointing (s : State) (current : Hand) : Except Unit (Option Gesture) :=
  let index_tip := current.getD 8 []
  match is_finger_extended s current with
  | .error e => .error e
  | .ok false => .ok none
  | .ok true =>
      if index_tip.length < 2 then .ok none
      else
        let x := index_tip.getD 0 0
        let y := index_tip.getD 1 0
        if x < 3 / 10 then .ok (some .nav_left)
        else if x > 7 / 10 then .ok (some .nav_right)
        else if y < 3 / 10 then .ok (some .nav_up)
        else if y > 7 / 10 then .ok (some .nav_down)
        else .ok none

/-- Embedding of `GestureDetector._detect_pinch_spread`.  The landmark
indexing (2, 4, 5, 8 with `[:2]` prefixes) is safe for length ≥ 21 hands;
the unguarded division is captured by `normVal`; the dead local
`distance_change` is dropped; and a NumPy broadcast `ValueError` from
either subtraction escapes the `except (IndexError, TypeError)` clause
(`Except.error`). -/
def detect_pinch_spread (s : State) (current : Hand) :
    Except Unit (Option Gesture × State) :=
  let thumb_tip := (current.getD 4 []).take 2
  let index_tip := (current.getD 8 []).take 2
  let thumb_mcp := (current.getD 2 []).take 2
  let index_mcp := (current.getD 5 []).take 2
  match bsub thumb_tip index_tip, bsub thumb_mcp index_mcp with
  | some dtip, some dbase =>
      let nd := normVal (sumSq dtip) (sumSq dbase)
      match s.last_pinch_distance with
      | none => .ok (none, { s with last_pinch_distance := some nd })
      | some _ =>
          let s := { s with last_pinch_distance := some nd }
          if nd.ltQ s.thresholds.pinch then
            if s.pinch_state = false then
              .ok (some .pinch, { s with pinch_state := true, pinch_frames := 0 })
            else
              let pf := s.pinch_frames + 1
              if s.thresholds.pinch_hold_frames ≤ pf then
                .ok (some .pinch_hold, { s with pinch_frames := pf })
              else .ok (none, { s with pinch_frames := pf })
          else if nd.gtQ s.thresholds.spread then
            .ok (some .spread, { s with pinch_state := false, pinch_frames := 0 })
          else .ok (none, { s with pinch_state := false, pinch_frames := 0 })
  | _, _ => .error ()

/-- Embedding of `GestureDetector.detect_gesture`: `None` when no current
landmarks or fewer than 21 of them; otherwise the pinch/spread stage runs
first, and any gesture it emits (including `pinch_hold`) records
`last_gesture` and arms `gesture_cooldown = 10`; a pointing gesture only
records `last_gesture`.  The `except (IndexError, TypeError)` clause does
not catch the broadcast `ValueError`, which propagates. -/
def detect_gesture (s : State) : Except Unit (Option Gesture × State) :=
  match s.current_landmarks with
  | none => .ok (none, s)
  | some current =>
      if current.length < 21 then .ok (none, s)
      else
        match detect_pinch_spread s current with
        | .error e => .error e
        | .ok (some g, s₁) =>
            .ok (some g, { s₁ with last_gesture := some g, gesture_cooldown := 10 })
        | .ok (none, s₁) =>
            match detect_pointing s₁ current with
            | .error e => .error e
            | .ok (some g) => .ok (some g, { s₁ with last_gesture := some g })
            | .ok none => .ok (none, s₁)

/-- Embedding of `GestureDetector.update`.  An empty landmark list resets
the state (via `_reset_state`) and emits nothing.  Otherwise the first
entry becomes the current hand (the entries of a typed `List Hand` are
lists, so `isinstance(landmarks[0], list)` always selects `landmarks[0]`),
the previous hand is shifted, an armed cooldown is decremented with no
gesture, and only then does detection run. -/
def update (s : State) (landmarks : List Hand) :
    Except Unit (Option Gesture × State) :=
  match landmarks with
  | [] => .ok (none, reset_state s)
  | current :: _ =>
      let s := { s with previous_landmarks := s.current_landmarks,
                        current_landmarks := some current }
      if 0 < s.gesture_cooldown then
        .ok (none, { s with gesture_cooldown := s.gesture_cooldown - 1 })
      else detect_gesture s

/-- Run `update` on a list of frames, collecting the emitted gestures, and
stopping at the first uncaught exception. -/
def run (s : State) : List (List Hand) → Except Unit (List (Option Gesture) × State)
  | [] => .ok ([], s)
  | f :: fs =>
      match update s f with
      | .error e => .error e
      | .ok (g, s') =>
          match run s' fs with
          | .error e => .error e
          | .ok (gs, s'') => .ok (g :: gs, s'')

end GestureDetector

namespace PerformanceOptimizer

/-- A video frame, abstracted to its `shape`: `rows` is `shape[0]`
(height) and `cols` is `shape[1]` (width).  Pixel content is irrelevant to
the properties below. -/
structure Frame where
  rows : ℕ
  cols : ℕ
deriving DecidableEq

/-- `cv2.resize(frame, (w, h))`: returns a frame of exactly the requested
size (`shape = (h, w)`). -/
def cvResize (_f : Frame) (w h : ℕ) : Frame := { rows := h, cols := w }

/-- The mutable fields of a `PerformanceOptimizer` instance that the
quality and frame paths read or write.  The timing-driven fields
(`current_fps`, `avg_processing_time`) are kept as state inputs, since
their values come from wall-clock measurements. -/
structure State where
  target_fps : ℚ
  frame_scale : ℚ
  skip_frames : ℕ
  frame_count : ℕ
  output_width : ℕ
  output_height : ℕ
  current_fps : ℚ
  avg_processing_time : ℚ
  min_scale : ℚ
  max_scale : ℚ
  quality_check_counter : ℕ
deriving DecidableEq

/-- Embedding of `PerformanceOptimizer._decrease_quality`: the skip count
is bumped first whenever it is below 2 — regardless of which ratio band
requested the decrease — and only otherwise is the scale stepped down by
`amount`, clamped at `min_scale`. -/
def decrease_quality (s : State) (amount : ℚ) : State :=
  if s.skip_frames < 2 then { s with skip_frames := s.skip_frames + 1 }
  else if s.min_scale < s.frame_scale then
    { s with frame_scale := max s.min_scale (s.frame_scale - amount) }
  else s

/-- Embedding of `PerformanceOptimizer._increase_quality`. -/
def increase_quality (s : State) (amount : ℚ) : State :=
  if 0 < s.skip_frames then { s with skip_frames := s.skip_frames - 1 }
  else if s.frame_scale < s.max_scale then
    { s with frame_scale := min s.max_scale (s.frame_scale + amount) }
  else s

/-- Embedding of `PerformanceOptimizer._dynamic_quality_adjustment`:
`fps_ratio = current_fps / target_fps`; below `0.6` decrease quality by
`0.15`, in `[0.6, 0.8)` decrease by `0.1`, above `1.2` with processing
headroom increase by `0.1`, else no change. -/
def dynamic_quality_adjustment (s : State) : State :=
  if s.current_fps / s.target_fps < 3 / 5 then decrease_quality s (3 / 20)
  else if s.current_fps / s.target_fps < 4 / 5 then decrease_quality s (1 / 10)
  else if 6 / 5 < s.current_fps / s.target_fps ∧
          s.avg_processing_time < 1 / (s.target_fps * (6 / 5)) then
    increase_quality s (1 / 10)
  else s

/-- Embedding of `PerformanceOptimizer._ensure_output_size`: resize to
`(output_width, output_height)` exactly when the shape differs from it. -/
def ensure_output_size (s : State) (f : Frame) : Frame :=
  if f.cols ≠ s.output_width ∨ f.rows ≠ s.output_height then
    cvResize f s.output_width s.output_height
  else f

/-- Embedding of `PerformanceOptimizer._process_frame_cpu`: scale both
dimensions by `frame_scale` (Python `int()` truncation, `⌊·⌋` for the
nonnegative values involved) unless the scale is exactly 1.  The GPU path
performs the same resize; `use_gpu` is false without CUDA hardware, so the
CPU path is the one modelled. -/
def process_frame_cpu (s : State) (f : Frame) : Frame :=
  if s.frame_scale ≠ 1 then
    cvResize f ((s.frame_scale * f.cols).floor.toNat) ((s.frame_scale * f.rows).floor.toNat)
  else f

/-- Embedding of `PerformanceOptimizer.optimize_frame`.  `internalError`
models the `except Exception` branch (any failure inside the `try` block:
the lock, metrics, or resize), which returns the input frame through
`_ensure_output_size`.  Otherwise the frame counter is incremented; a
skipped frame (counter mod `skip+1` nonzero, skip positive) passes
through `_ensure_output_size`; a processed frame is scaled, the quality
check cadence counter advances (adjusting on every
`quality_adjustment_threshold = 5`th frame), and the result again passes
through `_ensure_output_size`. -/
def optimize_frame (s : State) (f : Frame) (internalError : Bool) :
    Frame × State :=
  if internalError then (ensure_output_size s f, s)
  else
    let s := { s with frame_count := s.frame_count + 1 }
    if 0 < s.skip_frames ∧ s.frame_count % (s.skip_frames + 1) ≠ 0 then
      (ensure_output_size s f, s)
    else
      let pf := process_frame_cpu s f
      let s := { s with quality_check_counter := s.quality_check_counter + 1 }
      let s := if 5 ≤ s.quality_check_counter then
                 { dynamic_quality_adjustment s with quality_check_counter := 0 }
               else s
      (ensure_output_size s pf, s)

end PerformanceOptimizer

namespace HandTracker

/-- Coordinate access `lst[i][j]` on a hand. -/
def coord (h : Hand) (i j : ℕ) : ℚ := (h.getD i []).getD j 0

/-- Embedding of `HandTracker._smooth_landmarks` with smoothing factor
`α`: an empty previous hand passes the current one through; otherwise each
of the three coordinates of each landmark is
`current[i][j]*(1-α) + previous[i][j]*α`, built by the same
`range`-driven comprehension as the Python code (entries are exactly three
coordinates long at every call site). -/
def smooth_landmarks (α : ℚ) (current previous : Hand) : Hand :=
  if previous = [] then current
  else
    (List.range current.length).map fun i =>
      (List.range 3).map fun j =>
        coord current i j * (1 - α) + coord previous i j * α

/-- The fixed `smoothing_factor` set in `HandTracker.__init__`. -/
def smoothing_factor : ℚ := 1 / 2

/-- Embedding of the landmark loop of `HandTracker.find_hands`: each
detected hand is smoothed against the previous frame's hand at the same
index when one exists (`len(self.previous_landmarks) > hand_idx`), and
passed through unchanged otherwise. -/
def find_hands_landmarks (previous : List Hand) (hands : List Hand) :
    List Hand :=
  hands.enum.map fun p =>
    if p.1 < previous.length then
      smooth_landmarks smoothing_factor p.2 (previous.getD p.1 [])
    else p.2

end HandTracker

namespace GestureRecorder

/-- Spec-side definition (from the spec's words, for comparison with the
code): the standard cumulative DTW recurrence over a per-cell cost `d`,
with `cost[0,0] = d(0,0)`, border cells accumulating along the border, and
`cost[i,j] = d(i,j) + min(cost[i-1,j], cost[i,j-1], cost[i-1,j-1])`.  The
per-cell Euclidean cost is the rational-valued parameter `d`; the
instantiation below uses single-coordinate frames, on which the Euclidean
norm is exactly `|x - y| : ℚ` (certified in the C1 theorem). -/
def dtwSpec (d : ℕ → ℕ → ℚ) : ℕ → ℕ → ℚ
  | 0, 0 => d 0 0
  | 0, j + 1 => dtwSpec d 0 j + d 0 (j + 1)
  | i + 1, 0 => dtwSpec d i 0 + d (i + 1) 0
  | i + 1, j + 1 =>
      d (i + 1) (j + 1) +
        min (min (dtwSpec d i (j + 1)) (dtwSpec d (i + 1) j)) (dtwSpec d i j)

/-- The matrix `_calculate_gesture_distance` actually builds: it
initializes `np.zeros((len(current), len(recorded)))` and then writes
`dtw_matrix[i, j] = cost` — only the local cost, with no accumulation. -/
def dtw_matrix_code (d : ℕ → ℕ → ℚ) (i j : ℕ) : ℚ := d i j

/-- A frame holding one landmark with one coordinate; its flattened
coordinate vector is the scalar `x`. -/
def scalarFrame (x : ℚ) : Hand := [[x]]

/-- Query sequence used in the C1 analysis: two scalar frames `0, 2`. -/
def qEx : Template := [scalarFrame 0, scalarFrame 2]

/-- Stored template used in the C1 analysis: two scalar frames `1, 2`. -/
def tEx : Template := [scalarFrame 1, scalarFrame 2]

/-- The per-cell Euclidean cost between frame `i` of `qEx` and frame `j`
of `tEx`: the frames are scalars, so the norm of the difference is the
absolute difference of the two coordinates. -/
def dEx (i j : ℕ) : ℚ :=
  |(qEx.getD i []).flatten.headD 0 - (tEx.getD j []).flatten.headD 0|

/-- A scalar frame `0`, shared by the tie-breaking example. -/
def pFrame : Hand := [[0]]

/-- A scalar frame `1`. -/
def gFrame : Hand := [[1]]

/-- Tie-breaking query: two `pFrame`s. -/
def qTie : Template := [pFrame, pFrame]

/-- Stored templates for the tie-breaking example: template `a` differs
from the query in its first frame but shares its last frame; template `b`
is identical to the query. -/
def rTie : List (String × Template) := [("a", [gFrame, pFrame]), ("b", qTie)]

/-- Accumulator invariant of the `compare_gesture` loop: the running
minimum is still the initial `(None, inf)`, or it is a finite cost with a
nonnegative squared numerator and a positive denominator, recorded
together with some best-match name. -/
def AccInv (acc : Option String × GDist) : Prop :=
  acc = (none, .inf) ∨ ∃ nm s k, acc = (some nm, .val s k) ∧ 0 ≤ s ∧ 0 < k

end GestureRecorder

namespace GestureDetector

/-- Total view of `update`, for concrete runs on which no exception
occurs (the fallback branch never fires in the runs below). -/
def stepFrame (s : State) (f : List Hand) : Option Gesture × State :=
  match update s f with
  | .ok r => r
  | .error _ => (none, s)

/-- Fold `stepFrame` over a list of frames, returning the last emission
and the final state. -/
def runFrames (s : State) (fs : List (List Hand)) : Option Gesture × State :=
  fs.foldl (fun acc f => stepFrame acc.2 f) (none, s)

/-- A well-formed 21-landmark hand in a pinch pose: thumb base `(0,0)`,
index base `(1,0)` (base distance 1), thumb tip `(0,0)`, index tip
`(1/20, 0)` (normalized distance `1/20`, below the `0.08` pinch
threshold), index PIP at the tip (finger not extended), every other
landmark `(1/2, 1/2)`. -/
def pinchHand : Hand :=
  (List.range 21).map fun i =>
    if i = 2 then [0, 0]
    else if i = 4 then [0, 0]
    else if i = 5 then [1, 0]
    else if i = 6 then [1 / 20, 0]
    else if i = 8 then [1 / 20, 0]
    else [1 / 2, 1 / 2]

/-- A well-formed 21-landmark hand whose thumb base and index base
coincide (`base_distance = 0`) while the tips differ: thumb tip `(0,0)`,
index tip `(1/4, 0)`, both bases `(1/2, 1/2)` (the default), index PIP at
the tip, every other landmark `(1/2, 1/2)`. -/
def degenHand : Hand :=
  (List.range 21).map fun i =>
    if i = 4 then [0, 0]
    else if i = 6 then [1 / 4, 0]
    else if i = 8 then [1 / 4, 0]
    else [1 / 2, 1 / 2]

/-- A 21-landmark hand whose thumb-tip entry is the empty list while the
index-tip entry keeps two coordinates: NumPy cannot broadcast shapes
`(0,)` and `(2,)`, so `thumb_tip - index_tip` raises `ValueError`. -/
def badHand : Hand :=
  (List.range 21).map fun i => if i = 4 then [] else [1 / 2, 1 / 2]

/-- A detector state in mid-hold: `pinchHand` is current, a baseline
distance is stored, the pinch is held and the hold counter is one short
of the default threshold. -/
def holdState : State :=
  { initState with
      current_landmarks := some pinchHand,
      last_pinch_distance := some (.val 1 1),
      pinch_state := true,
      pinch_frames := 4 }

end GestureDetector

namespace PerformanceOptimizer

/-- A controller state measuring 21 FPS against a target of 30 (ratio
`0.7`, the mild-degradation band), with no frame skipping and full
scale. -/
def midBandState : State :=
  { target_fps := 30, frame_scale := 1, skip_frames := 0, frame_count := 0,
    output_width := 640, output_height := 480, current_fps := 21,
    avg_processing_time := 0, min_scale := 2 / 5, max_scale := 1,
    quality_check_counter := 0 }

/-- A controller state measuring 15 FPS against a target of 30 (ratio
`0.5`, the severe-degradation band). -/
def lowBandState : State :=
  { midBandState with current_fps := 15 }

end PerformanceOptimizer

/-- Decidable equality for `Except`, so that concrete classifier runs can
be settled by `decide`. -/
def exceptDecEq {e a : Type} [DecidableEq e] [DecidableEq a] :
    (x y : Except e a) → Decidable (x = y)
  | .ok u, .ok v =>
      if h : u = v then .isTrue (by rw [h]) else .isFalse (by simp [h])
  | .ok _, .error _ => .isFalse (by simp)
  | .error _, .ok _ => .isFalse (by simp)
  | .error u, .error v =>
      if h : u = v then .isTrue (by rw [h]) else .isFalse (by simp [h])

instance {e a : Type} [DecidableEq e] [DecidableEq a] : DecidableEq (Except e a) :=
  exceptDecEq

end Air

unseal Rat.add Rat.sub Rat.mul Rat.inv Nat.gcd

set_option maxRecDepth 100000

namespace Air

theorem zipWith_sq_self_sum (l : List ℚ) :
    (List.zipWith (fun x y => (x - y) ^ 2) l l).sum = 0 := by
  induction l with
  | nil => rfl
  | cons a t ih => simp [ih]

theorem zipWith_sq_sum_nonneg (l₁ l₂ : List ℚ) :
    0 ≤ (List.zipWith (fun x y => (x - y) ^ 2) l₁ l₂).sum := by
  induction l₁ generalizing l₂ with
  | nil => simp
  | cons a t ih =>
      cases l₂ with
      | nil => simp
      | cons b u => simpa using add_nonneg (sq_nonneg (a - b)) (ih u)

/-- The squared distance of a frame to itself is zero. -/
theorem frameDistSq_self (a : Hand) : frameDistSq a a = 0 :=
  zipWith_sq_self_sum _

/-- Squared distances are nonnegative. -/
theorem frameDistSq_nonneg (a b : Hand) : 0 ≤ frameDistSq a b :=
  zipWith_sq_sum_nonneg _ _

namespace GestureRecorder

/-- The code's distance of a nonempty query to itself has squared
numerator zero: the last frames coincide. -/
theorem calc_dist_identical (q : Template) (hq : q ≠ []) :
    calculate_gesture_distance q q = .val 0 (q.length + q.length) := by
  have h : ¬ q.length = 0 := fun h0 => hq (List.length_eq_zero.mp h0)
  unfold calculate_gesture_distance
  rw [if_neg h, frameDistSq_self]

/-- No code distance compares strictly below an encoded zero cost. -/
theorem calc_ltD_zero_false (q t : Template) (k : ℕ) :
    (calculate_gesture_distance q t).ltD (.val 0 k) = false := by
  unfold calculate_gesture_distance
  split
  · rfl
  · show GDist.ltD (.val _ _) (.val 0 k) = false
    simp only [GDist.ltD]
    apply decide_eq_false
    rw [zero_mul]
    exact not_lt.mpr (mul_nonneg (frameDistSq_nonneg _ _) (by positivity))

/-- A distance that wins the running-minimum comparison comes from a
nonempty template (the infinite cost of an empty template never wins). -/
theorem calc_ltD_true_nonempty {q t : Template} {md : GDist}
    (h : (calculate_gesture_distance q t).ltD md = true) : t ≠ [] := by
  intro he
  subst he
  simp [calculate_gesture_distance, GDist.ltD] at h

/-- Once the running minimum has squared numerator zero, the rest of the
loop changes nothing. -/
theorem bestMatch_keep_zero (q : Template) (R : List (String × Template))
    (bm : Option String) (k : ℕ) :
    bestMatch q R (bm, .val 0 k) = (bm, .val 0 k) := by
  induction R with
  | nil => rfl
  | cons p rest ih =>
      obtain ⟨nm, t⟩ := p
      simp only [bestMatch, calc_ltD_zero_false]
      simpa using ih

/-- The loop over an appended list runs the two halves in order. -/
theorem bestMatch_append (q : Template) (l₁ l₂ : List (String × Template)) :
    ∀ acc, bestMatch q (l₁ ++ l₂) acc = bestMatch q l₂ (bestMatch q l₁ acc) := by
  induction l₁ with
  | nil => intro acc; rfl
  | cons p rest ih =>
      intro acc
      obtain ⟨bm, md⟩ := acc
      obtain ⟨nm, t⟩ := p
      simp only [List.cons_append, bestMatch]
      split <;> exact ih _

/-- The loop preserves the accumulator invariant `AccInv`. -/
theorem bestMatch_inv (q : Template) (R : List (String × Template)) :
    ∀ acc, AccInv acc → AccInv (bestMatch q R acc) := by
  induction R with
  | nil => exact fun acc h => h
  | cons p rest ih =>
      intro acc hacc
      obtain ⟨bm, md⟩ := acc
      obtain ⟨nm, t⟩ := p
      simp only [bestMatch]
      split
      case isTrue hlt =>
        apply ih
        right
        refine ⟨nm, frameDistSq (q.getLastD []) (t.getLastD []),
          q.length + t.length, ?_, frameDistSq_nonneg _ _, ?_⟩
        · have hne : t ≠ [] := calc_ltD_true_nonempty hlt
          have h0 : ¬ t.length = 0 := fun h0 => hne (List.length_eq_zero.mp h0)
          unfold calculate_gesture_distance
          rw [if_neg h0]
        · have hne : t ≠ [] := calc_ltD_true_nonempty hlt
          have h0 : t.length ≠ 0 := fun h0 => hne (List.length_eq_zero.mp h0)
          omega
      case isFalse hlt => exact ih _ hacc

/-- The final running minimum is the initial accumulator or the distance
of one of the stored templates. -/
theorem bestMatch_min_cases (q : Template) (R : List (String × Template)) :
    ∀ acc, (bestMatch q R acc).2 = acc.2 ∨
      ∃ p ∈ R, (bestMatch q R acc).2 = calculate_gesture_distance q p.2 := by
  induction R with
  | nil => intro acc; left; rfl
  | cons p rest ih =>
      intro acc
      obtain ⟨bm, md⟩ := acc
      obtain ⟨nm, t⟩ := p
      simp only [bestMatch]
      split
      · rcases ih (some nm, calculate_gesture_distance q t) with h | ⟨p₁, hp₁, h⟩
        · right; exact ⟨(nm, t), List.mem_cons_self _ _, h⟩
        · right; exact ⟨p₁, List.mem_cons_of_mem _ hp₁, h⟩
      · rcases ih (bm, md) with h | ⟨p₁, hp₁, h⟩
        · left; exact h
        · right; exact ⟨p₁, List.mem_cons_of_mem _ hp₁, h⟩

/-- A best-match name produced by the loop was already in the accumulator
or belongs to a stored nonempty template. -/
theorem bestMatch_some_src (q : Template) (R : List (String × Template)) :
    ∀ acc nm, (bestMatch q R acc).1 = some nm →
      acc.1 = some nm ∨ ∃ t, (nm, t) ∈ R ∧ t ≠ [] := by
  induction R with
  | nil => intro acc nm h; left; exact h
  | cons p rest ih =>
      intro acc nm h
      obtain ⟨bm, md⟩ := acc
      obtain ⟨nm₁, t⟩ := p
      simp only [bestMatch] at h
      revert h
      split
      case isTrue hlt =>
        intro h
        rcases ih _ nm h with h1 | ⟨t₁, ht₁, hne⟩
        · right
          have he : nm₁ = nm := Option.some.inj h1
          subst he
          exact ⟨t, List.mem_cons_self _ _, calc_ltD_true_nonempty hlt⟩
        · right; exact ⟨t₁, List.mem_cons_of_mem _ ht₁, hne⟩
      case isFalse hlt =>
        intro h
        rcases ih _ nm h with h1 | ⟨t₁, ht₁, hne⟩
        · left; exact h1
        · right; exact ⟨t₁, List.mem_cons_of_mem _ ht₁, hne⟩

/-- An encoded zero cost with positive denominator is strictly below the
`0.3` threshold. -/
theorem ltQ_val_zero (k : ℕ) (hk : 0 < k) :
    GDist.ltQ (.val 0 k) (3 / 10) = true := by
  have hk₁ : (0 : ℚ) < (k : ℚ) := by exact_mod_cast hk
  simp only [GDist.ltQ]
  apply decide_eq_true
  constructor
  · norm_num
  · have := mul_pos (show (0 : ℚ) < (3 / 10) ^ 2 by norm_num) (pow_pos hk₁ 2)
    exact this

/-- Processing an entry identical to the query drives the running
minimum to an encoded zero cost (with positive denominator), which the
rest of the loop then keeps. -/
theorem bestMatch_hit (q : Template) (hq : q ≠ []) (nm : String)
    (R₂ : List (String × Template)) :
    ∀ acc, AccInv acc →
      ∃ nm₁ k, bestMatch q ((nm, q) :: R₂) acc = (some nm₁, .val 0 k) ∧ 0 < k := by
  intro acc hacc
  obtain ⟨bm, md⟩ := acc
  have hqlen : 0 < q.length := List.length_pos.mpr hq
  have hcalc := calc_dist_identical q hq
  rcases hacc with h | ⟨nm₀, s, k, h, hs, hk⟩
  · simp only [Prod.mk.injEq] at h
    obtain ⟨rfl, rfl⟩ := h
    simp only [bestMatch, hcalc]
    rw [show GDist.ltD (.val 0 (q.length + q.length)) .inf = true from rfl]
    simp only [if_true]
    exact ⟨nm, q.length + q.length, bestMatch_keep_zero q R₂ _ _, by omega⟩
  · simp only [Prod.mk.injEq] at h
    obtain ⟨rfl, rfl⟩ := h
    simp only [bestMatch, hcalc]
    have hL : (0 : ℚ) < ((q.length + q.length : ℕ) : ℚ) := by
      have : 0 < q.length + q.length := by omega
      exact_mod_cast this
    by_cases hp : (0 : ℚ) < s * ((q.length + q.length : ℕ) : ℚ) ^ 2
    · have hcond : GDist.ltD (.val 0 (q.length + q.length)) (.val s k) = true := by
        simp only [GDist.ltD]
        apply decide_eq_true
        rw [zero_mul]
        exact hp
      rw [hcond]
      simp only [if_true]
      exact ⟨nm, q.length + q.length, bestMatch_keep_zero q R₂ _ _, by omega⟩
    · have hs0 : s = 0 := by
        have hL2 : (0 : ℚ) < ((q.length + q.length : ℕ) : ℚ) ^ 2 := pow_pos hL 2
        rcases lt_or_eq_of_le hs with hlt | he
        · exact absurd (mul_pos hlt hL2) hp
        · exact he.symm
      subst hs0
      have hcond : GDist.ltD (.val 0 (q.length + q.length)) (.val 0 k) = false := by
        simp only [GDist.ltD]
        apply decide_eq_false
        simp
      rw [hcond]
      simp only [Bool.false_eq_true, if_false]
      exact ⟨nm₀, k, bestMatch_keep_zero q R₂ _ _, hk⟩

/-- C8 (amended).  A query identical to a stored template has code
distance of encoded squared numerator 0 (i.e. the real cost 0), and a
match is then always reported with a zero-cost template; the identical
template itself is selected when it is first in insertion order (ties are
broken by insertion order); with no stored templates, or with every
stored cost at or above the 0.3 threshold, no match is reported; and any
reported match names a nonempty stored template (empty templates, whose
cost is infinite, are never selected). -/
theorem c8_matcher_amended :
    (∀ q : Template, q ≠ [] →
        calculate_gesture_distance q q = .val 0 (q.length + q.length)) ∧
    (∀ (R : List (String × Template)) (q : Template) (nm : String), q ≠ [] →
        (nm, q) ∈ R →
        ∃ nm₁ k, bestMatch q R (none, .inf) = (some nm₁, .val 0 k) ∧
          compare_gesture R q = some nm₁) ∧
    (∀ (R₁ : List (String × Template)) (q : Template) (nm : String), q ≠ [] →
        compare_gesture ((nm, q) :: R₁) q = some nm) ∧
    (∀ q : Template, compare_gesture [] q = none) ∧
    (∀ (R : List (String × Template)) (q : Template),
        (∀ p ∈ R, (calculate_gesture_distance q p.2).ltQ (3 / 10) = false) →
        compare_gesture R q = none) ∧
    (∀ (R : List (String × Template)) (q : Template) (nm : String),
        compare_gesture R q = some nm → ∃ t, (nm, t) ∈ R ∧ t ≠ []) := by
  have hmain : ∀ (R : List (String × Template)) (q : Template) (nm : String),
      q ≠ [] → (nm, q) ∈ R →
      ∃ nm₁ k, bestMatch q R (none, .inf) = (some nm₁, .val 0 k) ∧
        compare_gesture R q = some nm₁ := by
    intro R q nm hq hmem
    obtain ⟨R₁, R₂, rfl⟩ := List.append_of_mem hmem
    rw [bestMatch_append]
    have hinv : AccInv (bestMatch q R₁ (none, .inf)) :=
      bestMatch_inv q R₁ (none, .inf) (Or.inl rfl)
    obtain ⟨nm₁, k, heq, hk⟩ := bestMatch_hit q hq nm R₂ _ hinv
    refine ⟨nm₁, k, heq, ?_⟩
    unfold compare_gesture
    rw [if_neg hq]
    simp only [bestMatch_append, heq, ltQ_val_zero k hk, if_true]
  refine ⟨fun q hq => calc_dist_identical q hq, hmain, ?_, ?_, ?_, ?_⟩
  · intro R₁ q nm hq
    have hinv : AccInv ((none : Option String), GDist.inf) := Or.inl rfl
    obtain ⟨nm₁, k, heq, hk⟩ := bestMatch_hit q hq nm R₁ _ hinv
    have hnm : nm₁ = nm := by
      have hcalc := calc_dist_identical q hq
      simp only [bestMatch, hcalc] at heq
      rw [show GDist.ltD (.val 0 (q.length + q.length)) .inf = true from rfl] at heq
      simp only [if_true, bestMatch_keep_zero, Prod.mk.injEq] at heq
      exact (Option.some.inj heq.1).symm
    subst hnm
    unfold compare_gesture
    rw [if_neg hq]
    simp only [heq, ltQ_val_zero k hk, if_true]
  · intro q
    by_cases hq : q = []
    · simp [compare_gesture, hq]
    · unfold compare_gesture
      rw [if_neg hq]
      simp [bestMatch, GDist.ltQ]
  · intro R q hall
    by_cases hq : q = []
    · simp [compare_gesture, hq]
    · have hmc := bestMatch_min_cases q R (none, .inf)
      unfold compare_gesture
      rw [if_neg hq]
      show (if (bestMatch q R (none, .inf)).2.ltQ (3 / 10) = true
            then (bestMatch q R (none, .inf)).1 else none) = none
      rcases hmc with h | ⟨p, hp, h⟩
      · rw [show (bestMatch q R (none, .inf)).2 = GDist.inf from h]
        rfl
      · rw [h, hall p hp]
        rfl
  · intro R q nm h
    unfold compare_gesture at h
    by_cases hq : q = []
    · rw [if_pos hq] at h
      exact absurd h (by simp)
    · rw [if_neg hq] at h
      have h2 : (if (bestMatch q R (none, .inf)).2.ltQ (3 / 10) = true
            then (bestMatch q R (none, .inf)).1 else none) = some nm := h
      by_cases hc : (bestMatch q R (none, .inf)).2.ltQ (3 / 10) = true
      · rw [if_pos hc] at h2
        rcases bestMatch_some_src q R (none, .inf) nm h2 with h1 | h3
        · exact absurd h1 (by simp)
        · exact h3
      · rw [if_neg hc] at h2
        exact absurd h2 (by simp)

/-- C8 counterexample (tie-breaking): the query `qTie` is identical to
the stored template `"b"`, yet the matcher selects `"a"` — an earlier,
different template whose last frame happens to coincide with the query's —
because the code's cost depends only on the last frames and ties keep the
earlier entry. -/
theorem c8_tie_counterexample :
    compare_gesture rTie qTie = some "a" ∧
    ("b", qTie) ∈ rTie ∧
    ("a", [gFrame, pFrame]) ∈ rTie ∧
    ([gFrame, pFrame] : Template) ≠ qTie ∧
    calculate_gesture_distance qTie [gFrame, pFrame] = .val 0 4 := by
  refine ⟨by decide, by decide, by decide, by decide, by decide⟩

/-- C8 witness: the amended theorem evaluated at concrete inputs. -/
theorem c8_matcher_witness :
    calculate_gesture_distance qTie qTie = .val 0 (qTie.length + qTie.length) ∧
    compare_gesture [("g", qTie)] qTie = some "g" ∧
    compare_gesture [] qTie = none ∧
    compare_gesture [("x", [gFrame])] qTie = none ∧
    compare_gesture [("g", qTie), ("h", [gFrame])] qTie ≠ none := by
  refine ⟨c8_matcher_amended.1 qTie (by decide),
    c8_matcher_amended.2.2.1 [] qTie "g" (by decide),
    c8_matcher_amended.2.2.2.1 qTie,
    c8_matcher_amended.2.2.2.2.1 [("x", [gFrame])] qTie (by decide),
    ?_⟩
  obtain ⟨nm₁, k, _, hc⟩ :=
    c8_matcher_amended.2.1 [("g", qTie), ("h", [gFrame])] qTie "g" (by decide)
      (by decide)
  rw [hc]
  simp

/-- C10.  Stopping a recording with zero captured frames returns `False`
and leaves the whole recorder state unchanged (the stored templates, the
written records, and the still-armed `recording` flag included); and the
record/stop path never persists a template with an empty frame sequence,
in memory or on disk. -/
theorem c10_stop_recording_empty :
    (∀ s : State, s.current_gesture = [] → stop_recording s = (false, s)) ∧
    (∀ (s : State) (p : String × Template),
        p ∈ (stop_recording s).2.recorded_gestures → p.2 = [] →
        p ∈ s.recorded_gestures) ∧
    (∀ (s : State) (p : String × Template),
        p ∈ (stop_recording s).2.saved_files → p.2 = [] →
        p ∈ s.saved_files) := by
  have hcur : ∀ s : State, s.recording ∧ 0 < s.current_gesture.length →
      s.current_gesture ≠ [] := by
    intro s hc
    exact List.length_pos.mp hc.2
  refine ⟨?_, ?_, ?_⟩
  · intro s h
    unfold stop_recording
    rw [h]
    simp
  · intro s p hp hpe
    revert hp
    unfold stop_recording
    split
    case isTrue hc =>
      intro hp
      simp only [dictSet] at hp
      revert hp
      split
      case isTrue hany =>
        intro hp
        rw [List.mem_map] at hp
        obtain ⟨p₁, hp₁, hfp⟩ := hp
        revert hfp
        split
        case isTrue he =>
          intro hfp
          refine absurd ?_ (hcur s hc)
          rw [← hfp] at hpe
          exact hpe
        case isFalse he =>
          intro hfp
          exact hfp ▸ hp₁
      case isFalse hany =>
        intro hp
        rcases List.mem_append.mp hp with h1 | h1
        · exact h1
        · have hps : p = (s.gesture_name, s.current_gesture) := by simpa using h1
          refine absurd ?_ (hcur s hc)
          rw [hps] at hpe
          exact hpe
    case isFalse hc =>
      intro hp
      exact hp
  · intro s p hp hpe
    revert hp
    unfold stop_recording
    split
    case isTrue hc =>
      intro hp
      rcases List.mem_append.mp hp with h1 | h1
      · exact h1
      · have hps : p = (s.gesture_name, s.current_gesture) := by simpa using h1
        refine absurd ?_ (hcur s hc)
        rw [hps] at hpe
        exact hpe
    case isFalse hc =>
      intro hp
      exact hp

/-- C10 witness: stopping with no captured frames on a concrete recording
state changes nothing and still reports the recorder as recording. -/
theorem c10_stop_recording_witness :
    stop_recording ⟨true, [], "g", [], []⟩ = (false, ⟨true, [], "g", [], []⟩) ∧
    (stop_recording ⟨true, [], "g", [], []⟩).2.recording = true := by
  have h := c10_stop_recording_empty.1 ⟨true, [], "g", [], []⟩ rfl
  exact ⟨h, by rw [h]⟩

/-- C1 (code bug).  The code's `dtw_matrix` holds only the local costs:
at the concrete query `qEx` and template `tEx` its final cell violates the
claimed DTW recurrence, and the returned match cost (encoded squared
numerator 0, i.e. the real cost 0) differs from the recurrence's final
cell over `|query| + |template|`, which is `1/4`.  The last four
conjuncts certify that `dEx` is the Euclidean distance between the
flattened frames: it is nonnegative and its square is the squared
Frobenius distance. -/
theorem c1_dtw_code_bug :
    dtw_matrix_code dEx 1 1 ≠
      dEx 1 1 + min (min (dtw_matrix_code dEx 0 1) (dtw_matrix_code dEx 1 0))
        (dtw_matrix_code dEx 0 0) ∧
    calculate_gesture_distance qEx tEx = .val 0 4 ∧
    dtwSpec dEx 1 1 = 1 ∧
    dtwSpec dEx 1 1 / ((qEx.length : ℚ) + (tEx.length : ℚ)) = 1 / 4 ∧
    (0 ≤ dEx 0 0 ∧ dEx 0 0 ^ 2 = frameDistSq (qEx.getD 0 []) (tEx.getD 0 [])) ∧
    (0 ≤ dEx 0 1 ∧ dEx 0 1 ^ 2 = frameDistSq (qEx.getD 0 []) (tEx.getD 1 [])) ∧
    (0 ≤ dEx 1 0 ∧ dEx 1 0 ^ 2 = frameDistSq (qEx.getD 1 []) (tEx.getD 0 [])) ∧
    (0 ≤ dEx 1 1 ∧ dEx 1 1 ^ 2 = frameDistSq (qEx.getD 1 []) (tEx.getD 1 [])) := by
  have h3 : dtwSpec dEx (0 + 1) (0 + 1) = 1 := by
    simp only [dtwSpec]
    decide
  have h3' : dtwSpec dEx 1 1 = 1 := h3
  refine ⟨by decide, by decide, h3', ?_, by decide, by decide, by decide, by decide⟩
  rw [h3']
  decide

end GestureRecorder

namespace GestureDetector

/-- C4 (code bug).  A landmark list of the correct length 21 whose
thumb-tip entry is empty makes `update` raise: the NumPy subtraction
`thumb_tip - index_tip` fails to broadcast shapes `(0,)` and `(2,)` and
the resulting `ValueError` matches neither `except (IndexError,
TypeError)` clause, so it propagates to the caller instead of returning
`None` or a gesture string. -/
theorem c4_update_value_error :
    badHand.length = 21 ∧ update initState [badHand] = .error () := by
  refine ⟨by decide, by decide⟩

/-- C5 (amended).  An empty landmark list emits no gesture and resets the
previous/current hands, the stored pinch distance, the held flag and the
hold counter — but `_reset_state` does not touch the cooldown counter or
the last emitted gesture label, which persist. -/
theorem c5_reset_amended :
    ∀ s : State,
      update s [] = .ok (none, reset_state s) ∧
      (reset_state s).previous_landmarks = none ∧
      (reset_state s).current_landmarks = none ∧
      (reset_state s).last_pinch_distance = none ∧
      (reset_state s).pinch_state = false ∧
      (reset_state s).pinch_frames = 0 ∧
      (reset_state s).gesture_cooldown = s.gesture_cooldown ∧
      (reset_state s).last_gesture = s.last_gesture := by
  intro s
  exact ⟨rfl, rfl, rfl, rfl, rfl, rfl, rfl, rfl⟩

/-- C5 counterexample: after a concrete run that armed the cooldown and
recorded a last gesture, a no-hand frame emits nothing but leaves the
cooldown at 10 and the last gesture label at `pinch` — the state is not
reset to all-absent/zero as claimed. -/
theorem c5_reset_counterexample :
    (runFrames initState [[pinchHand], [pinchHand], []]).1 = none ∧
    (runFrames initState [[pinchHand], [pinchHand], []]).2.gesture_cooldown = 10 ∧
    (runFrames initState [[pinchHand], [pinchHand], []]).2.last_gesture =
      some .pinch := by
  refine ⟨by decide, by decide, by decide⟩

/-- C2 (amended).  There is no explicit guard on `base_distance == 0`:
the IEEE division produces `nan` when the tip distance is also zero and
`+inf` otherwise.  A `nan` frame emits no gesture (both threshold
comparisons are false); an `inf` frame only stores the baseline on the
first observation, but on every later frame `inf` exceeds the spread
threshold and the stage emits `spread` — not "no gesture". -/
theorem c2_zero_base_amended :
    ∀ (s : State) (current : Hand) (dtip dbase : List ℚ),
      bsub ((current.getD 4 []).take 2) ((current.getD 8 []).take 2) = some dtip →
      bsub ((current.getD 2 []).take 2) ((current.getD 5 []).take 2) = some dbase →
      sumSq dbase = 0 →
      (sumSq dtip = 0 → s.last_pinch_distance = none →
        detect_pinch_spread s current =
          .ok (none, { s with last_pinch_distance := some .nan })) ∧
      (sumSq dtip = 0 → ∀ v, s.last_pinch_distance = some v →
        detect_pinch_spread s current =
          .ok (none, { s with last_pinch_distance := some .nan,
                              pinch_state := false, pinch_frames := 0 })) ∧
      (sumSq dtip ≠ 0 → s.last_pinch_distance = none →
        detect_pinch_spread s current =
          .ok (none, { s with last_pinch_distance := some .inf })) ∧
      (sumSq dtip ≠ 0 → ∀ v, s.last_pinch_distance = some v →
        detect_pinch_spread s current =
          .ok (some .spread, { s with last_pinch_distance := some .inf,
                                      pinch_state := false, pinch_frames := 0 })) := by
  intro s current dtip dbase htip hbase h0
  refine ⟨?_, ?_, ?_, ?_⟩
  · intro ht0 hlast
    simp only [detect_pinch_spread]
    rw [htip, hbase]
    simp [h0, ht0, hlast, normVal]
  · intro ht0 v hlast
    simp only [detect_pinch_spread]
    rw [htip, hbase]
    simp [h0, ht0, hlast, normVal, NormVal.ltQ, NormVal.gtQ]
  · intro htne hlast
    simp only [detect_pinch_spread]
    rw [htip, hbase]
    simp [h0, htne, hlast, normVal]
  · intro htne v hlast
    simp only [detect_pinch_spread]
    rw [htip, hbase]
    simp [h0, htne, hlast, normVal, NormVal.ltQ, NormVal.gtQ]

/-- C2 counterexample: on `degenHand` the base distance is zero, yet the
second consecutive frame emits `spread` from the pinch/spread stage — the
frame is not treated as "no gesture". -/
theorem c2_zero_base_counterexample :
    bsub ((degenHand.getD 2 []).take 2) ((degenHand.getD 5 []).take 2) =
      some [0, 0] ∧
    sumSq [(0 : ℚ), 0] = 0 ∧
    (run initState [[degenHand], [degenHand]]).map (fun r => r.1) =
      .ok [none, some .spread] := by
  refine ⟨by decide, by decide, by decide⟩

/-- C2 witness: the amended theorem at `degenHand`, with and without a
stored baseline distance. -/
theorem c2_zero_base_witness :
    (detect_pinch_spread { initState with last_pinch_distance := some (.val 1 1) }
        degenHand).map (fun r => r.1) = .ok (some .spread) ∧
    (detect_pinch_spread initState degenHand).map (fun r => r.1) = .ok none := by
  constructor
  · have h := (c2_zero_base_amended
        { initState with last_pinch_distance := some (.val 1 1) } degenHand
        [-(1 / 4), 0] [0, 0] (by decide) (by decide) (by decide)).2.2.2
        (by decide) (.val 1 1) rfl
    rw [h]
    rfl
  · have h := (c2_zero_base_amended initState degenHand
        [-(1 / 4), 0] [0, 0] (by decide) (by decide) (by decide)).2.2.1
        (by decide) rfl
    rw [h]
    rfl

/-- C3 (amended).  Every gesture the pinch/spread stage emits —
`pinch_hold` included — records `last_gesture` and arms the cooldown at
10; once the hold counter reaches the configured threshold while the
normalized distance is below the pinch threshold, the stage emits
`pinch_hold` on that detection frame; but any frame entered with a
positive cooldown only decrements it and emits nothing, so `pinch_hold`
is suppressed for the 10 frames after its own emission rather than
repeating every frame. -/
theorem c3_cooldown_amended :
    (∀ (s : State) (current : Hand) (g : Gesture) (s₁ : State),
        s.current_landmarks = some current → ¬ current.length < 21 →
        detect_pinch_spread s current = .ok (some g, s₁) →
        detect_gesture s =
          .ok (some g, { s₁ with last_gesture := some g, gesture_cooldown := 10 })) ∧
    (∀ (s : State) (current : Hand) (v : NormVal) (dtip dbase : List ℚ),
        s.last_pinch_distance = some v →
        bsub ((current.getD 4 []).take 2) ((current.getD 8 []).take 2) = some dtip →
        bsub ((current.getD 2 []).take 2) ((current.getD 5 []).take 2) = some dbase →
        (normVal (sumSq dtip) (sumSq dbase)).ltQ s.thresholds.pinch = true →
        s.pinch_state = true →
        s.thresholds.pinch_hold_frames ≤ s.pinch_frames + 1 →
        detect_pinch_spread s current =
          .ok (some .pinch_hold,
            { s with last_pinch_distance := some (normVal (sumSq dtip) (sumSq dbase)),
                     pinch_frames := s.pinch_frames + 1 })) ∧
    (∀ (s : State) (h : Hand) (t : List Hand),
        0 < s.gesture_cooldown →
        update s (h :: t) =
          .ok (none, { s with previous_landmarks := s.current_landmarks,
                              current_landmarks := some h,
                              gesture_cooldown := s.gesture_cooldown - 1 })) := by
  refine ⟨?_, ?_, ?_⟩
  · intro s current g s₁ hc hlen hd
    simp only [detect_gesture]
    rw [hc]
    simp only [if_neg hlen]
    rw [hd]
  · intro s current v dtip dbase hlast htip hbase hlt hps hhold
    simp only [detect_pinch_spread]
    rw [htip, hbase]
    simp only [hlast]
    rw [hlt]
    simp only [if_true, hps]
    have hpsf : ¬ (true = false) := by simp
    rw [if_neg hpsf, if_pos hhold]
  · intro s h t hcd
    simp only [update]
    rw [if_pos]
    exact hcd

/-- C3 counterexample: from the initial state, 17 identical pinch frames
produce the first `pinch_hold` on frame 17 (baseline frame, `pinch` with
cooldown 10, ten cooldown frames, then four sub-threshold hold frames),
the emission itself re-arms the cooldown at 10, and frame 18 — whose
stored normalized distance is still below the pinch threshold — emits
nothing.  So `pinch_hold` arms the cooldown and is not repeatable every
frame. -/
theorem c3_cooldown_counterexample :
    (runFrames initState (List.replicate 17 [pinchHand])).1 = some .pinch_hold ∧
    (runFrames initState (List.replicate 17 [pinchHand])).2.gesture_cooldown = 10 ∧
    (runFrames initState (List.replicate 18 [pinchHand])).1 = none ∧
    (runFrames initState (List.replicate 18 [pinchHand])).2.last_pinch_distance =
      some (.val (1 / 400) 1) ∧
    NormVal.ltQ (.val (1 / 400) 1)
      (runFrames initState (List.replicate 18 [pinchHand])).2.thresholds.pinch =
      true := by
  refine ⟨by decide, by decide, by decide, by decide, by decide⟩

/-- C3 witness: the amended theorem at a concrete held-pinch state (the
`pinch_hold` emission arms the cooldown at 10) and at a concrete
cooldown-armed state (the next frame emits nothing and decrements). -/
theorem c3_cooldown_witness :
    (detect_gesture holdState).map (fun r => (r.1, r.2.gesture_cooldown)) =
      .ok (some .pinch_hold, 10) ∧
    (update { initState with gesture_cooldown := 3 } [pinchHand]).map
      (fun r => (r.1, r.2.gesture_cooldown)) = .ok (none, 2) ∧
    (detect_pinch_spread holdState pinchHand).map (fun r => r.1) =
      .ok (some .pinch_hold) := by
  have hb := c3_cooldown_amended.2.1 holdState pinchHand (.val 1 1)
    [-(1 / 20), 0] [-1, 0] rfl (by decide) (by decide) (by decide) rfl (by decide)
  refine ⟨?_, ?_, ?_⟩
  · have ha := c3_cooldown_amended.1 holdState pinchHand .pinch_hold _
      rfl (by decide) hb
    rw [ha]
    rfl
  · have hc := c3_cooldown_amended.2.2 { initState with gesture_cooldown := 3 }
      pinchHand [] (by decide)
    rw [hc]
    rfl
  · rw [hb]
    rfl

end GestureDetector

namespace PerformanceOptimizer

/-- The shape contract of `_ensure_output_size`: the returned frame has
exactly the declared output dimensions. -/
theorem ensure_output_size_dims (s : State) (f : Frame) :
    (ensure_output_size s f).cols = s.output_width ∧
    (ensure_output_size s f).rows = s.output_height := by
  unfold ensure_output_size
  split
  · exact ⟨rfl, rfl⟩
  case isFalse h =>
    push_neg at h
    exact ⟨h.1, h.2⟩

/-- `_decrease_quality` never touches the declared output dimensions. -/
theorem decrease_quality_output (s : State) (a : ℚ) :
    (decrease_quality s a).output_width = s.output_width ∧
    (decrease_quality s a).output_height = s.output_height := by
  unfold decrease_quality
  split
  · exact ⟨rfl, rfl⟩
  · split
    · exact ⟨rfl, rfl⟩
    · exact ⟨rfl, rfl⟩

/-- `_increase_quality` never touches the declared output dimensions. -/
theorem increase_quality_output (s : State) (a : ℚ) :
    (increase_quality s a).output_width = s.output_width ∧
    (increase_quality s a).output_height = s.output_height := by
  unfold increase_quality
  split
  · exact ⟨rfl, rfl⟩
  · split
    · exact ⟨rfl, rfl⟩
    · exact ⟨rfl, rfl⟩

/-- `_dynamic_quality_adjustment` never touches the declared output
dimensions. -/
theorem dynamic_quality_adjustment_output (s : State) :
    (dynamic_quality_adjustment s).output_width = s.output_width ∧
    (dynamic_quality_adjustment s).output_height = s.output_height := by
  unfold dynamic_quality_adjustment
  split
  · exact decrease_quality_output s _
  · split
    · exact decrease_quality_output s _
    · split
      · exact increase_quality_output s _
      · exact ⟨rfl, rfl⟩

/-- C7.  Every frame returned by `optimize_frame` — skipped, processed,
or internal-error fallback — has exactly the declared output dimensions,
because every return path ends in `_ensure_output_size`; the internal
processing resolution never reaches the caller. -/
theorem c7_output_dims :
    ∀ (s : State) (f : Frame) (internalError : Bool),
      ((optimize_frame s f internalError).1).cols = s.output_width ∧
      ((optimize_frame s f internalError).1).rows = s.output_height := by
  intro s f e
  unfold optimize_frame
  split
  · exact ensure_output_size_dims s f
  · dsimp only
    split
    · exact ensure_output_size_dims _ f
    · set s₁ : State := { s with frame_count := s.frame_count + 1 } with hs₁
      set s₂ : State := { s₁ with quality_check_counter := s₁.quality_check_counter + 1 }
        with hs₂
      set s₃ : State := if 5 ≤ s₂.quality_check_counter then
          { dynamic_quality_adjustment s₂ with quality_check_counter := 0 }
        else s₂ with hs₃
      have hw : s₃.output_width = s.output_width ∧
          s₃.output_height = s.output_height := by
        rw [hs₃]
        split
        · have h := dynamic_quality_adjustment_output s₂
          exact ⟨h.1, h.2⟩
        · exact ⟨rfl, rfl⟩
      have h := ensure_output_size_dims s₃ (process_frame_cpu s₁ f)
      exact ⟨h.1.trans hw.1, h.2.trans hw.2⟩

/-- C6 (amended).  Both degradation bands call `_decrease_quality`
(`ratio < 0.6` with step `0.15`, `0.6 ≤ ratio < 0.8` with step `0.1`),
and `_decrease_quality` always increases the skip count first while it is
below its maximum of 2, leaving the scale unchanged; only at maximum skip
does it decrease the scale by the band's step, clamped at the configured
minimum scale (or leave the state unchanged at minimum scale). -/
theorem c6_quality_amended :
    ∀ (s : State) (a : ℚ),
      (s.current_fps / s.target_fps < 3 / 5 →
        dynamic_quality_adjustment s = decrease_quality s (3 / 20)) ∧
      (¬ s.current_fps / s.target_fps < 3 / 5 →
        s.current_fps / s.target_fps < 4 / 5 →
        dynamic_quality_adjustment s = decrease_quality s (1 / 10)) ∧
      (s.skip_frames < 2 →
        (decrease_quality s a).skip_frames = s.skip_frames + 1 ∧
        (decrease_quality s a).frame_scale = s.frame_scale) ∧
      (¬ s.skip_frames < 2 → s.min_scale < s.frame_scale →
        (decrease_quality s a).skip_frames = s.skip_frames ∧
        (decrease_quality s a).frame_scale = max s.min_scale (s.frame_scale - a)) ∧
      (¬ s.skip_frames < 2 → ¬ s.min_scale < s.frame_scale →
        decrease_quality s a = s) ∧
      (s.min_scale ≤ (decrease_quality s a).frame_scale ∨
        (decrease_quality s a).frame_scale = s.frame_scale) := by
  intro s a
  refine ⟨?_, ?_, ?_, ?_, ?_, ?_⟩
  · intro h
    unfold dynamic_quality_adjustment
    rw [if_pos h]
  · intro h1 h2
    unfold dynamic_quality_adjustment
    rw [if_neg h1, if_pos h2]
  · intro h
    unfold decrease_quality
    rw [if_pos h]
    exact ⟨rfl, rfl⟩
  · intro h1 h2
    unfold decrease_quality
    rw [if_neg h1, if_pos h2]
    exact ⟨rfl, rfl⟩
  · intro h1 h2
    unfold decrease_quality
    rw [if_neg h1, if_neg h2]
  · unfold decrease_quality
    split
    · right; rfl
    · split
      · left; exact le_max_left _ _
      · right; rfl

/-- C6 counterexample: at measured 21 FPS against target 30 (ratio 0.7,
inside `[0.6, 0.8)`) with skip 0 and scale 1, the adjustment increases
the skip count to 1 and leaves the scale at 1 — it does not decrease the
scale while leaving the skip count unchanged. -/
theorem c6_quality_counterexample :
    midBandState.current_fps / midBandState.target_fps = 7 / 10 ∧
    midBandState.skip_frames = 0 ∧
    midBandState.frame_scale = 1 ∧
    (dynamic_quality_adjustment midBandState).skip_frames = 1 ∧
    (dynamic_quality_adjustment midBandState).frame_scale = 1 := by
  refine ⟨by decide, by decide, by decide, by decide, by decide⟩

/-- C6 witness: the amended theorem at concrete states in both bands. -/
theorem c6_quality_witness :
    dynamic_quality_adjustment lowBandState = decrease_quality lowBandState (3 / 20) ∧
    dynamic_quality_adjustment midBandState = decrease_quality midBandState (1 / 10) ∧
    (decrease_quality midBandState (1 / 10)).skip_frames = 1 ∧
    (decrease_quality midBandState (1 / 10)).frame_scale = 1 ∧
    (decrease_quality { midBandState with skip_frames := 2 } (1 / 10)).frame_scale =
      max (2 / 5) (1 - 1 / 10) := by
  refine ⟨(c6_quality_amended lowBandState 0).1 (by decide),
    (c6_quality_amended midBandState 0).2.1 (by decide) (by decide),
    ((c6_quality_amended midBandState (1 / 10)).2.2.1 (by decide)).1,
    ((c6_quality_amended midBandState (1 / 10)).2.2.1 (by decide)).2, ?_⟩
  have h := ((c6_quality_amended { midBandState with skip_frames := 2 }
    (1 / 10)).2.2.2.1 (by decide) (by decide)).2
  rw [h]
  decide

end PerformanceOptimizer

namespace HandTracker

/-- Indexing a `range`-comprehension list picks the value at the index. -/
theorem getD_map_range {α : Type} (f : ℕ → α) (n i : ℕ) (h : i < n) (d : α) :
    ((List.range n).map f).getD i d = f i := by
  rw [List.getD_eq_getElem?_getD, List.getElem?_map, List.getElem?_range h]
  rfl

/-- A three-coordinate landmark is rebuilt exactly by the inner
`for j in range(3)` comprehension. -/
theorem range3_map_getD (l : List ℚ) (h : l.length = 3) :
    (List.range 3).map (fun j => l.getD j 0) = l := by
  rcases l with _ | ⟨a, l⟩
  · simp at h
  rcases l with _ | ⟨b, l⟩
  · simp at h
  rcases l with _ | ⟨c, l⟩
  · simp at h
  rcases l with _ | ⟨d, l⟩
  · rfl
  · simp at h

/-- A hand of three-coordinate landmarks is rebuilt exactly by the nested
`range` comprehension over its own coordinates. -/
theorem range_map_coord (H : Hand) (h3 : ∀ e ∈ H, e.length = 3) :
    (List.range H.length).map
      (fun i => (List.range 3).map fun j => coord H i j) = H := by
  induction H with
  | nil => rfl
  | cons a t ih =>
      have hr := List.range_succ_eq_map t.length
      rw [List.length_cons, hr, List.map_cons, List.map_map]
      have h1 : ((fun i => (List.range 3).map fun j => coord (a :: t) i j) ∘ Nat.succ) =
          fun i => (List.range 3).map fun j => coord t i j := by
        funext i
        rfl
      have h2 : (List.range 3).map (fun j => coord (a :: t) 0 j) = a := by
        have he : (fun j => coord (a :: t) 0 j) = fun j => a.getD j 0 := by
          funext j
          rfl
        rw [he]
        exact range3_map_getD a (h3 a (List.mem_cons_self a t))
      rw [h1, h2, ih (fun e he => h3 e (List.mem_cons_of_mem a he))]

/-- Smoothing a hand of three-coordinate landmarks against itself is the
identity: each coordinate becomes `c*(1-α) + c*α = c`. -/
theorem smooth_landmarks_self (H : Hand) (h3 : ∀ e ∈ H, e.length = 3) :
    smooth_landmarks smoothing_factor H H = H := by
  unfold smooth_landmarks
  split
  case isTrue h => rfl
  case isFalse h =>
    have hfun : (fun i => (List.range 3).map fun j =>
        coord H i j * (1 - smoothing_factor) + coord H i j * smoothing_factor) =
        fun i => (List.range 3).map fun j => coord H i j := by
      funext i
      have hc : (fun j => coord H i j * (1 - smoothing_factor) +
          coord H i j * smoothing_factor) = fun j => coord H i j := by
        funext j
        unfold smoothing_factor
        ring
      rw [hc]
    rw [hfun, range_map_coord H h3]

/-- C9.  The smoother computes each output coordinate as
`current*(1-α) + previous*α` with the fixed `α = 1/2`; consequently a
hand smoothed against itself is returned exactly, a hand with an empty
previous hand is returned unchanged, and a hand whose index has no
previous-frame hand passes through `find_hands` unchanged. -/
theorem c9_smoother :
    (∀ (c p : Hand) (i j : ℕ), p ≠ [] → i < c.length → j < 3 →
        coord (smooth_landmarks smoothing_factor c p) i j =
          coord c i j * (1 - smoothing_factor) + coord p i j * smoothing_factor) ∧
    smoothing_factor = 1 / 2 ∧
    (∀ H : Hand, (∀ e ∈ H, e.length = 3) →
        smooth_landmarks smoothing_factor H H = H) ∧
    (∀ c : Hand, smooth_landmarks smoothing_factor c [] = c) ∧
    (∀ (prev hands : List Hand) (i : ℕ), prev.length ≤ i →
        (find_hands_landmarks prev hands)[i]? = hands[i]?) := by
  refine ⟨?_, rfl, smooth_landmarks_self, ?_, ?_⟩
  · intro c p i j hp hi hj
    unfold smooth_landmarks
    rw [if_neg hp]
    show (((List.range c.length).map fun i => (List.range 3).map fun j =>
        coord c i j * (1 - smoothing_factor) +
          coord p i j * smoothing_factor).getD i []).getD j 0 = _
    rw [getD_map_range _ _ _ hi]
    show ((List.range 3).map fun j =>
        coord c i j * (1 - smoothing_factor) +
          coord p i j * smoothing_factor).getD j 0 = _
    rw [getD_map_range _ _ _ hj]
  · intro c
    unfold smooth_landmarks
    rw [if_pos rfl]
  · intro prev hands i hle
    unfold find_hands_landmarks
    rw [List.getElem?_map, List.getElem?_enum]
    cases h : hands[i]? with
    | none => rfl
    | some a =>
        simp only [Option.map_some', Option.map_map]
        show some (if i < prev.length then _ else a) = some a
        rw [if_neg (Nat.not_lt.mpr hle)]

/-- C9 witness: the theorem evaluated at concrete hands. -/
theorem c9_smoother_witness :
    smooth_landmarks smoothing_factor [[1, 2, 3]] [[1, 2, 3]] = [[1, 2, 3]] ∧
    smooth_landmarks smoothing_factor [[1, 2, 3]] [] = [[1, 2, 3]] ∧
    (find_hands_landmarks [] [[[1, 2, 3]]])[0]? = some [[1, 2, 3]] ∧
    coord (smooth_landmarks smoothing_factor [[4, 2, 3]] [[2, 6, 3]]) 0 0 =
      coord [[4, 2, 3]] 0 0 * (1 - smoothing_factor) +
        coord [[2, 6, 3]] 0 0 * smoothing_factor := by
  refine ⟨c9_smoother.2.2.1 _ (by decide), c9_smoother.2.2.2.1 _, ?_,
    c9_smoother.1 _ _ 0 0 (by decide) (by decide) (by decide)⟩
  have h := c9_smoother.2.2.2.2 [] [[[1, 2, 3]]] 0 (by decide)
  rw [h]
  rfl

end HandTracker

end Air
